import Mathlib

/-!
Verification development for the Ultimate64 MCP server
(src/mcp_ultimate_server.py).

The development gives a shallow embedding of the parts of the server the
properties below talk about:

* the Python value universe (JSON-like values) and the dict/str operations
  the code uses;
* the connection state and its normalization (UltimateHandler.set_base_url);
* the HTTP layer (UltimateHandler.make_request) over an abstract network
  oracle that models the device and the aiohttp observations the code makes
  (status code, content type, JSON parse outcome, raw bytes, transport
  failure);
* the full tool dispatcher (UltimateHandler.call_tool) over the complete
  catalog of 39 tools, including the binary-upload branches and the
  filesystem remapping heuristics, over abstract filesystem / download /
  base64 oracles;
* the SSE message loop (WebServer.handle_sse.process_messages), the message
  submission endpoint (WebServer.handle_messages) and the direct PRG upload
  endpoint (WebServer.handle_upload_prg).

Every definition is translated from the Python source; environment effects
(network, filesystem, base64 library, JSON parsing of foreign input) are
oracles passed in as explicit function arguments.  Exception texts produced
by the CPython runtime itself (for example a TypeError message raised when a
non-dict value is subscripted) are modelled by named constants: no theorem
below depends on their exact wording.
-/

namespace U64

/-- A single-quote character (codepoint 39), used to build the Python
rendering of KeyError values and the literal quotes in error texts. -/
def sq : String := String.singleton (Char.ofNat 39)

/-- Join a list of strings with a separator, as Python str.join does. -/
def joinWith (sep : String) : List String → String
  | [] => ""
  | [x] => x
  | x :: xs => x ++ sep ++ joinWith sep xs

/-- Python str.startswith, used by set_base_url and the path remapping. -/
def pythonStartsWith (s pre : String) : Bool := pre.data.isPrefixOf s.data

/-- Substring search on character lists: the needle is a prefix of some
suffix of the haystack. -/
def listInfixOf (needle : List Char) : List Char → Bool
  | [] => needle.isEmpty
  | c :: rest => needle.isPrefixOf (c :: rest) || listInfixOf needle rest

/-- Python substring containment (the `needle in hay` test on strings),
used by the content-type checks. -/
def pythonIn (needle hay : String) : Bool := listInfixOf needle.data hay.data

/-- Core of Python str.rstrip applied to one character: drop every trailing
occurrence of that character. -/
def rstripCore (c : Char) (cs : List Char) : List Char :=
  ((cs.reverse).dropWhile (fun a => a = c)).reverse

/-- Python url.rstrip applied with the slash character, as set_base_url does. -/
def rstripSlash (s : String) : String := ⟨rstripCore (Char.ofNat 47) s.data⟩

/-- Python str.strip with no argument (whitespace at both ends); the ASCII
whitespace classes cover every character the claims exercise. -/
def pyIsSpace (c : Char) : Bool :=
  c = ' ' ∨ c = Char.ofNat 10 ∨ c = Char.ofNat 9 ∨ c = Char.ofNat 13 ∨
  c = Char.ofNat 11 ∨ c = Char.ofNat 12

/-- Python str.strip (whitespace at both ends). -/
def pythonStrip (s : String) : String :=
  ⟨((s.data.dropWhile pyIsSpace).reverse.dropWhile pyIsSpace).reverse⟩

/-- Fuelled core of Python str.replace; the fuel is the length of the
scanned list, which bounds the number of steps for a non-empty pattern. -/
def replaceCore (old new : List Char) : Nat → List Char → List Char
  | 0, l => l
  | _ + 1, [] => []
  | fuel + 1, c :: rest =>
    if old.isPrefixOf (c :: rest) then
      new ++ replaceCore old new fuel (rest.drop (old.length - 1))
    else
      c :: replaceCore old new fuel rest

/-- Python str.replace (all occurrences); the source only applies it with a
fixed non-empty pattern, for which the fuelled core is exact. -/
def pythonReplace (s old new : String) : String :=
  ⟨replaceCore old.data new.data s.data.length s.data⟩

/-- Python os.path.basename for the slash-separated paths the source feeds
it: the part after the last slash. -/
def pythonBasename (s : String) : String :=
  ⟨(s.data.reverse.takeWhile (fun c => ¬ c = Char.ofNat 47)).reverse⟩

/-- Python os.path.join of a mount point and a relative second component, as
the source uses it (the mount constants do not end in a slash and the second
component is only joined when it is relative). -/
def pythonJoin (a b : String) : String := a ++ "/" ++ b

/-- Hexadecimal digit character (lowercase), for bytes.hex(). -/
def hexDigitChar (n : Nat) : Char :=
  if n < 10 then Char.ofNat (48 + n) else Char.ofNat (87 + n)

/-- One byte rendered as two lowercase hex digits, as bytes.hex() does. -/
def byteHex (b : Nat) : String :=
  ⟨[hexDigitChar (b / 16 % 16), hexDigitChar (b % 16)]⟩

/-- Python bytes.hex(): the bytes of the body, in order, two digits each. -/
def bytesHex (bs : List Nat) : String := String.join (bs.map byteHex)

/-- JSON-like Python values: the universe of tool arguments, request
parameters and response bodies handled by the server. -/
inductive PyVal where
  | str (s : String)
  | int (n : Int)
  | bool (b : Bool)
  | list (xs : List PyVal)
  | dict (kvs : List (String × PyVal))
  | pynone
deriving Repr

/-- First value bound to a key in a Python dict, rendered as an association
list (dict keys are unique, so first match is the binding). -/
def lookupArg : List (String × PyVal) → String → Option PyVal
  | [], _ => Option.none
  | (k2, v) :: rest, k => if k2 = k then some v else lookupArg rest k

/-- Python dict assignment d[k] = v: replace the binding in place when the
key is present, append it otherwise (insertion order is preserved). -/
def dictSet : List (String × PyVal) → String → PyVal → List (String × PyVal)
  | [], k, v => [(k, v)]
  | (k2, v2) :: rest, k, v =>
    if k2 = k then (k2, v) :: rest else (k2, v2) :: dictSet rest k v

/-- Python dict key removal (the comprehension dropping the errors key). -/
def removeKey (kvs : List (String × PyVal)) (k : String) : List (String × PyVal) :=
  kvs.filter (fun kv => ¬ kv.1 = k)

/-- Python truthiness of a value. -/
def truthy : PyVal → Bool
  | .str s => ¬ s = ""
  | .int n => ¬ n = 0
  | .bool b => b
  | .list xs => ¬ xs.isEmpty
  | .dict kvs => ¬ kvs.isEmpty
  | .pynone => false

/-- Python truthiness of the result of dict.get (None when absent). -/
def truthyOpt : Option PyVal → Bool
  | Option.none => false
  | some v => truthy v

/-- Python dict.get with no default; only reached after a successful
subscript has established the dict shape, so the non-dict case is inert. -/
def pyGet (args : PyVal) (k : String) : Option PyVal :=
  match args with
  | .dict kvs => lookupArg kvs k
  | _ => Option.none

mutual

/-- Python repr of a value, as f-strings render containers.  String quoting
always uses single quotes and inner escaping is not reproduced; no theorem
depends on the container renderings. -/
def pyRepr : PyVal → String
  | .str s => sq ++ s ++ sq
  | .int n => toString n
  | .bool true => "True"
  | .bool false => "False"
  | .pynone => "None"
  | .list xs => "[" ++ joinWith ", " (pyReprItems xs) ++ "]"
  | .dict kvs => "\x7b" ++ joinWith ", " (pyReprEntries kvs) ++ "\x7d"

/-- Renderings of the items of a list value. -/
def pyReprItems : List PyVal → List String
  | [] => []
  | x :: xs => pyRepr x :: pyReprItems xs

/-- Renderings of the entries of a dict value. -/
def pyReprEntries : List (String × PyVal) → List String
  | [] => []
  | (k, v) :: kvs => (sq ++ k ++ sq ++ ": " ++ pyRepr v) :: pyReprEntries kvs

end

/-- Python str() of a value, as an f-string interpolates it. -/
def pyStrOf : PyVal → String
  | .str s => s
  | v => pyRepr v

/-- Escape of one character inside a JSON string, as json.dumps produces it
(quote, backslash and the common control characters). -/
def jsonEscapeChar (c : Char) : String :=
  if c = Char.ofNat 34 then "\\\"" else
  if c = Char.ofNat 92 then "\\\\" else
  if c = Char.ofNat 10 then "\\n" else
  if c = Char.ofNat 9 then "\\t" else
  if c = Char.ofNat 13 then "\\r" else String.singleton c

/-- Escape of a string for a JSON document. -/
def jsonEscape (s : String) : String := String.join (s.data.map jsonEscapeChar)

/-- Indentation prefix used by json.dumps with indent=2. -/
def indentStr (n : Nat) : String := ⟨List.replicate n ' '⟩

mutual

/-- json.dumps(v, indent=2) at a given indentation level, as the source
uses it to render tool results. -/
def pyDumpLvl (ind : Nat) : PyVal → String
  | .str s => "\"" ++ jsonEscape s ++ "\""
  | .int n => toString n
  | .bool true => "true"
  | .bool false => "false"
  | .pynone => "null"
  | .list [] => "[]"
  | .list (x :: xs) =>
    "[\n" ++ joinWith ",\n" (pyDumpItems (ind + 2) (x :: xs)) ++ "\n" ++ indentStr ind ++ "]"
  | .dict [] => "\x7b\x7d"
  | .dict (kv :: kvs) =>
    "\x7b\n" ++ joinWith ",\n" (pyDumpEntries (ind + 2) (kv :: kvs)) ++ "\n" ++ indentStr ind ++ "\x7d"

/-- Rendered items of a JSON array, each on its own indented line. -/
def pyDumpItems (ind : Nat) : List PyVal → List String
  | [] => []
  | x :: xs => (indentStr ind ++ pyDumpLvl ind x) :: pyDumpItems ind xs

/-- Rendered entries of a JSON object, each on its own indented line. -/
def pyDumpEntries (ind : Nat) : List (String × PyVal) → List String
  | [] => []
  | (k, v) :: kvs =>
    (indentStr ind ++ "\"" ++ jsonEscape k ++ "\": " ++ pyDumpLvl ind v) :: pyDumpEntries ind kvs

end

/-- json.dumps(v, indent=2) as the source calls it. -/
def pyDump (v : PyVal) : String := pyDumpLvl 0 v

/-- Modelled text of a TypeError or AttributeError raised by the CPython
runtime when a non-dict value is subscripted with a string key, joined, or
queried for an attribute.  No theorem depends on this wording. -/
def typeErrMsg : String := "TypeError"

/-- Connection state of the UltimateHandler: the optional base URL and the
derived API base. -/
structure Conn where
  base_url : Option String
  api_base : Option String
deriving Repr, DecidableEq

/-- Handler state before any connection is configured. -/
def initConn : Conn := ⟨Option.none, Option.none⟩

/-- UltimateHandler.set_base_url: prefix the scheme when the URL does not
already start with http, strip trailing slashes, derive the /v1 API base.
The previous state is overwritten wholesale. -/
def set_base_url (_ : Conn) (url : String) : Conn :=
  let u := if pythonStartsWith url "http" then url else "http://" ++ url
  let b := rstripSlash u
  { base_url := some b, api_base := some (b ++ "/v1") }

/-- get_c64_host_from_env: the C64_HOST variable when set and non-empty,
scheme-prefixed when it does not start with http. -/
def get_c64_host_from_env (envVar : Option String) : Option String :=
  match envVar with
  | some h =>
    if ¬ h = "" then
      some (if pythonStartsWith h "http" then h else "http://" ++ h)
    else Option.none
  | Option.none => Option.none

/-- UltimateHandler construction: both fields start absent and
set_base_url runs when the environment supplies a host. -/
def handlerInit (envVar : Option String) : Conn :=
  match get_c64_host_from_env envVar with
  | some b => set_base_url initConn b
  | Option.none => initConn

/-- Body of an outbound HTTP request: a JSON document (the aiohttp json=
argument) or raw bytes (the data= argument of the binary posts). -/
inductive ReqBody where
  | jsonBody (v : PyVal)
  | rawBody (bytes : List Nat)
deriving Repr

/-- One outbound HTTP request issued to the device: method, URL, query
parameters (still carrying the Python values the source put in them) and
optional body. -/
structure HttpRequest where
  method : String
  url : String
  params : List (String × PyVal)
  body : Option ReqBody
deriving Repr

/-- Query-parameter rendering: aiohttp accepts str and int values and
renders int with str().  Other values would raise inside the request call
and surface through the network oracle as a transport failure; their
rendering here is never exercised by a claim. -/
def paramStr : PyVal → String
  | .str s => s
  | .int n => toString n
  | v => pyStrOf v

/-- Full request target: URL plus the serialized query string. -/
def renderUrl (r : HttpRequest) : String :=
  r.url ++
    (if r.params.isEmpty then ""
     else "?" ++ joinWith "&" (r.params.map (fun kv => kv.1 ++ "=" ++ paramStr kv.2)))

/-- Device response as the source observes it: status 204; status 200 with
a JSON content type whose body parses (or fails to parse); status 200 with
any other content type (raw bytes); any other status with its body text;
or a transport-level failure raising inside the request call. -/
inductive NetResp where
  | resp204
  | resp200json (v : PyVal)
  | resp200badjson (e : String)
  | resp200other (raw : List Nat)
  | respOther (status : Nat) (body : String)
  | netFail (e : String)
deriving Repr

/-- Result of the remote PRG download in the run_prg_binary branch, as the
source observes it: a status with the response bytes, an aiohttp
ClientError, or any other exception. -/
inductive FetchResp where
  | got (status : Nat) (bytes : List Nat)
  | clientErr (e : String)
  | otherErr (e : String)

/-- Result of base64.b64decode: bytes, a binascii.Error, or any other
exception. -/
inductive B64Res where
  | ok (bytes : List Nat)
  | binasciiErr (e : String)
  | otherErr (e : String)

/-- Filesystem oracle: os.path.exists and reading a file open in binary
mode (the error text is the rendering of the raised OSError). -/
structure Fs where
  pathExists : String → Bool
  readFile : String → Except String (List Nat)

/-- Environment of one dispatch: the device network, the remote-download
client, the filesystem, and the two base64 decoders the source uses
(validate=True in the tool branch, the default in the upload endpoint). -/
structure Env where
  net : HttpRequest → NetResp
  fetch : String → FetchResp
  fs : Fs
  b64strict : String → B64Res
  b64 : String → B64Res

/-- The fixed not-configured message of make_request. -/
def notConfiguredMsg : String :=
  "No C64 host configured. Use " ++ sq ++ "ultimate_set_connection" ++ sq ++
    " tool to set connection."

/-- An errors payload, as the source builds its structured error results. -/
def pyErrors (msgs : List String) : PyVal :=
  .dict [("errors", .list (msgs.map PyVal.str))]

/-- UltimateHandler.make_request: the uniform result shape plus the list of
requests issued (empty when no connection is configured; the falsy check
also treats an empty api_base string as unconfigured). -/
def make_request (env : Env) (st : Conn) (method endpoint : String)
    (params : List (String × PyVal)) (data : Option PyVal) :
    PyVal × List HttpRequest :=
  match st.api_base with
  | Option.none => (pyErrors [notConfiguredMsg], [])
  | some base =>
    if base = "" then (pyErrors [notConfiguredMsg], [])
    else
      let req : HttpRequest := ⟨method, base ++ "/" ++ endpoint, params, data.map ReqBody.jsonBody⟩
      let res :=
        match env.net req with
        | .resp204 => PyVal.dict [("ok", .bool true)]
        | .resp200json v => v
        | .resp200badjson e => pyErrors ["Request failed: " ++ e]
        | .resp200other raw => PyVal.dict [("data", .str (bytesHex raw))]
        | .respOther status body => pyErrors ["HTTP " ++ toString status ++ ": " ++ body]
        | .netFail e => pyErrors ["Request failed: " ++ e]
      (res, [req])

/-- One tool of the static catalog: its unique name and the required subset
of its input schema.  Descriptions and the remaining schema fields are
read-only documentation the dispatcher never consults; no claim below
quantifies over them, so they are elided here. -/
structure ToolDef where
  name : String
  required : List String
deriving Repr, DecidableEq

/-- The static tool catalog of UltimateHandler.get_tools, in source order,
with the required list of each inputSchema. -/
def toolCatalog : List ToolDef := [
  ⟨"ultimate_set_connection", ["hostname"]⟩,
  ⟨"ultimate_get_connection", []⟩,
  ⟨"ultimate_version", []⟩,
  ⟨"ultimate_play_sid", ["file"]⟩,
  ⟨"ultimate_play_mod", ["file"]⟩,
  ⟨"ultimate_load_program", ["file"]⟩,
  ⟨"ultimate_run_program", ["file"]⟩,
  ⟨"ultimate_run_prg_binary", []⟩,
  ⟨"ultimate_run_cartridge", ["file"]⟩,
  ⟨"ultimate_get_config_categories", []⟩,
  ⟨"ultimate_get_config_category", ["category"]⟩,
  ⟨"ultimate_get_config_item", ["category", "item"]⟩,
  ⟨"ultimate_set_config_item", ["category", "item", "value"]⟩,
  ⟨"ultimate_mount_disk", ["drive", "file"]⟩,
  ⟨"ultimate_unmount_disk", ["drive"]⟩,
  ⟨"ultimate_turn_drive_on", ["drive"]⟩,
  ⟨"ultimate_turn_drive_off", ["drive"]⟩,
  ⟨"ultimate_create_d64", ["path"]⟩,
  ⟨"ultimate_create_d71", ["path"]⟩,
  ⟨"ultimate_create_d81", ["path"]⟩,
  ⟨"ultimate_save_config", []⟩,
  ⟨"ultimate_load_config", []⟩,
  ⟨"ultimate_reset_config", []⟩,
  ⟨"ultimate_read_memory", ["address"]⟩,
  ⟨"ultimate_write_memory", ["address", "data"]⟩,
  ⟨"ultimate_write_memory_binary", ["address", "file_path"]⟩,
  ⟨"ultimate_reset_machine", []⟩,
  ⟨"ultimate_power_off", []⟩,
  ⟨"ultimate_get_machine_info", []⟩,
  ⟨"ultimate_get_machine_state", []⟩,
  ⟨"ultimate_soft_reset", []⟩,
  ⟨"ultimate_reboot_device", []⟩,
  ⟨"ultimate_set_drive_mode", ["drive", "mode"]⟩,
  ⟨"ultimate_load_drive_rom", ["drive", "file"]⟩,
  ⟨"ultimate_get_file_info", ["path"]⟩,
  ⟨"ultimate_create_dnp", ["path", "tracks"]⟩,
  ⟨"ultimate_start_stream", ["stream", "ip"]⟩,
  ⟨"ultimate_stop_stream", ["stream"]⟩,
  ⟨"ultimate_bulk_config_update", ["config"]⟩]

/-- The registered tool names. -/
def catalogNames : List String := toolCatalog.map ToolDef.name

/-- How one dispatch attempt ended: an early CallToolResult return carrying
its result dict, a result dict falling through to the common rendering, or
an exception propagating to the outer handler of call_tool. -/
inductive Outcome where
  | early (r : PyVal)
  | result (r : PyVal)
  | raised (e : String)
deriving Repr

/-- Effects of one dispatch: the possibly updated connection state, the
device requests issued, and the outcome. -/
structure DispatchOut where
  st : Conn
  reqs : List HttpRequest
  out : Outcome
deriving Repr

/-- Python subscript arguments[k]: the bound value, a KeyError rendered
with quotes when the key is absent, or a TypeError when the subscripted
value is not a dict. -/
def withArg (st : Conn) (args : PyVal) (k : String) (f : PyVal → DispatchOut) : DispatchOut :=
  match args with
  | .dict kvs =>
    match lookupArg kvs k with
    | Option.none => ⟨st, [], .raised (sq ++ k ++ sq)⟩
    | some v => f v
  | _ => ⟨st, [], .raised typeErrMsg⟩

/-- A branch that issues one make_request call and falls through to the
common rendering with its result. -/
def mrStep (env : Env) (st : Conn) (method endpoint : String)
    (params : List (String × PyVal)) (data : Option PyVal) : DispatchOut :=
  let r := make_request env st method endpoint params data
  ⟨st, r.2, .result r.1⟩

/-- The f-string rendering of self.api_base in the direct-post branches
(None renders as the string None when no connection is configured). -/
def optApi (st : Conn) : String :=
  match st.api_base with
  | Option.none => "None"
  | some s => s

/-- The f-string rendering of self.base_url. -/
def optBase (st : Conn) : String :=
  match st.base_url with
  | Option.none => "None"
  | some s => s

/-- The container path remapping shared by the play_sid and
write_memory_binary branches: when /workspace exists, replace the hardcoded
host project root or prefix relative paths with /workspace. -/
def remapWorkspace (fs : Fs) (p : String) : String :=
  if fs.pathExists "/workspace" then
    if pythonStartsWith p "/Users/martijn/UltimateMCP" then
      pythonReplace p "/Users/martijn/UltimateMCP" "/workspace"
    else if ¬ pythonStartsWith p "/" then pythonJoin "/workspace" p
    else p
  else p

/-- Response handling of the direct octet-stream post in the play_sid
branch: statuses 200 and 204 try the JSON body and fall back to an
ok marker when parsing raises, any other status yields the HTTP error
entry, and a transport failure raises into the surrounding except. -/
def sidPostOutcome (resp : NetResp) : Except String PyVal :=
  match resp with
  | .resp204 => .ok (PyVal.dict [("ok", .bool true)])
  | .resp200json v => .ok v
  | .resp200badjson _ => .ok (PyVal.dict [("ok", .bool true)])
  | .resp200other _ => .ok (PyVal.dict [("ok", .bool true)])
  | .respOther status body => .ok (pyErrors ["HTTP " ++ toString status ++ ": " ++ body])
  | .netFail e => .error e

/-- The play_sid branch after the required file argument was read: local
files found under the remapped path are posted as raw bytes, everything
else falls back to the device-side path runner; exceptions inside the
branch are converted to a Failed-to-play error result. -/
def playSidBranch (env : Env) (st : Conn) (fileV : PyVal) (song : Option PyVal) : DispatchOut :=
  match fileV with
  | .str fp =>
    let mapped := remapWorkspace env.fs fp
    if env.fs.pathExists mapped then
      let params := if truthyOpt song then [("songnr", song.getD .pynone)] else []
      match env.fs.readFile mapped with
      | .error e => ⟨st, [], .result (pyErrors ["Failed to play SID: " ++ e])⟩
      | .ok bytes =>
        let req : HttpRequest :=
          ⟨"POST", optApi st ++ "/runners:sidplay", params, some (.rawBody bytes)⟩
        match sidPostOutcome (env.net req) with
        | .ok r => ⟨st, [req], .result r⟩
        | .error e => ⟨st, [req], .result (pyErrors ["Failed to play SID: " ++ e])⟩
    else
      let params := ("file", fileV) ::
        (if truthyOpt song then [("songnr", song.getD .pynone)] else [])
      mrStep env st "PUT" "runners:sidplay" params Option.none
  | _ => ⟨st, [], .result (pyErrors ["Failed to play SID: " ++ typeErrMsg])⟩

/-- Mount points probed by the run_prg_binary path heuristics. -/
def possibleMounts : List String := ["/workspace", "/app", "/mnt", "/data"]

/-- Candidate container paths tried for a host file path, in the order the
source builds them: the original path first, then per existing mount the
project-root replacement (when the hardcoded root occurs in the path) and
the basename join for absolute /Users paths, then the mount joins for
relative paths. -/
def candidatePaths (fs : Fs) (fp : String) : List String :=
  let fromUsers :=
    if pythonStartsWith fp "/Users/" then
      (possibleMounts.filter fs.pathExists).foldl
        (fun acc mount =>
          acc ++
            (if pythonIn "/Users/martijn/UltimateMCP" fp then
              [pythonReplace fp "/Users/martijn/UltimateMCP" mount]
            else []) ++
            [pythonJoin mount (pythonBasename fp)])
        []
    else []
  let fromRel :=
    if ¬ pythonStartsWith fp "/" then
      (possibleMounts.filter fs.pathExists).map (fun mount => pythonJoin mount fp)
    else []
  [fp] ++ fromUsers ++ fromRel

/-- The candidate loop of the run_prg_binary file branch: the first
existing path whose read succeeds wins; read failures continue. -/
def tryReadPaths (fs : Fs) : List String → Option (String × List Nat)
  | [] => Option.none
  | p :: rest =>
    if fs.pathExists p then
      match fs.readFile p with
      | .ok d => some (p, d)
      | .error _ => tryReadPaths fs rest
    else tryReadPaths fs rest

/-- The upload-and-run post of the run_prg_binary branch: on 200 the JSON
body (or a Program-started fallback) is wrapped in a success dict, any
other status yields a Failed-to-run error result, and a transport failure
is converted by the outer except into a Failed-to-process error result. -/
def runPrgUpload (env : Env) (st : Conn) (prg : List Nat) (sourceInfo : String) : DispatchOut :=
  let req : HttpRequest := ⟨"POST", optApi st ++ "/runners:run_prg", [], some (.rawBody prg)⟩
  let success := fun (rd : PyVal) => PyVal.dict [
    ("success", .bool true),
    ("message", .str ("Running PRG from " ++ sourceInfo)),
    ("size_bytes", .int prg.length),
    ("response", rd)]
  match env.net req with
  | .resp200json v => ⟨st, [req], .result (success v)⟩
  | .resp200badjson _ =>
    ⟨st, [req], .result (success (.dict [("message", .str "Program started")]))⟩
  | .resp200other _ =>
    ⟨st, [req], .result (success (.dict [("message", .str "Program started")]))⟩
  | .resp204 => ⟨st, [req], .result (pyErrors ["Failed to run PRG: HTTP 204: "])⟩
  | .respOther status body =>
    ⟨st, [req], .result (pyErrors ["Failed to run PRG: HTTP " ++ toString status ++ ": " ++ body])⟩
  | .netFail e => ⟨st, [req], .result (pyErrors ["Failed to process PRG file: " ++ e])⟩

/-- The validation and upload shared by the three run_prg_binary sources:
empty data and single-byte data return early, otherwise the PRG is posted. -/
def afterDecode (env : Env) (st : Conn) (prg : List Nat) (sourceInfo : String) : DispatchOut :=
  if prg.length = 0 then
    ⟨st, [], .early (pyErrors ["No PRG data provided or data is empty"])⟩
  else if prg.length < 2 then
    ⟨st, [], .early (pyErrors
      ["PRG file is too small (must be at least 2 bytes for load address)"])⟩
  else runPrgUpload env st prg sourceInfo

/-- The run_prg_binary branch: base64 data, a download URL, or a file path,
in that priority order, each with its own early error returns. -/
def runPrgBinaryBranch (env : Env) (st : Conn) (args : PyVal) : DispatchOut :=
  match args with
  | .dict kvs =>
    if truthyOpt (lookupArg kvs "prg_data_base64") then
      match (lookupArg kvs "prg_data_base64").getD .pynone with
      | .str b64raw =>
        let b64s := pythonStrip b64raw
        if b64s = "" then ⟨st, [], .early (pyErrors ["Base64 data is empty"])⟩
        else
          match env.b64strict b64s with
          | .ok prg =>
            afterDecode env st prg ("base64 data (" ++ toString prg.length ++ " bytes)")
          | .binasciiErr e =>
            ⟨st, [], .early (pyErrors ["Invalid base64 data: " ++ e ++
              ". Make sure the base64 string is complete and properly encoded."])⟩
          | .otherErr e =>
            ⟨st, [], .early (pyErrors ["Failed to decode base64 data: " ++ e])⟩
      | _ => ⟨st, [], .result (pyErrors ["Failed to process PRG file: " ++ typeErrMsg])⟩
    else if truthyOpt (lookupArg kvs "url") then
      match (lookupArg kvs "url").getD .pynone with
      | .str durl =>
        match env.fetch durl with
        | .got 200 bytes =>
          afterDecode env st bytes
            ("URL " ++ durl ++ " (" ++ toString bytes.length ++ " bytes)")
        | .got status _ =>
          ⟨st, [], .early (pyErrors
            ["Failed to download PRG file from URL: HTTP " ++ toString status])⟩
        | .clientErr e =>
          ⟨st, [], .early (pyErrors ["Failed to download PRG file from URL: " ++ e])⟩
        | .otherErr e =>
          ⟨st, [], .early (pyErrors ["Error downloading PRG file: " ++ e])⟩
      | _ => ⟨st, [], .result (pyErrors ["Failed to process PRG file: " ++ typeErrMsg])⟩
    else if truthyOpt (lookupArg kvs "file_path") then
      match (lookupArg kvs "file_path").getD .pynone with
      | .str fp =>
        let cands := candidatePaths env.fs fp
        match tryReadPaths env.fs cands with
        | some (p, d) =>
          afterDecode env st d ("file " ++ p ++ " (" ++ toString d.length ++ " bytes)")
        | Option.none =>
          ⟨st, [], .early (pyErrors ["File not found: " ++ fp ++ ". Tried paths: " ++
            joinWith ", " (cands.take 5) ++ ". Consider using " ++ sq ++
            "prg_data_base64" ++ sq ++ " or " ++ sq ++ "url" ++ sq ++
            " parameter instead."])⟩
      | _ => ⟨st, [], .result (pyErrors ["Failed to process PRG file: " ++ typeErrMsg])⟩
    else
      ⟨st, [], .early (pyErrors ["One of " ++ sq ++ "file_path" ++ sq ++ ", " ++ sq ++
        "prg_data_base64" ++ sq ++ ", or " ++ sq ++ "url" ++ sq ++ " must be provided"])⟩
  | _ => ⟨st, [], .result (pyErrors ["Failed to process PRG file: " ++ typeErrMsg])⟩

/-- The write_memory_binary branch after both required arguments were
read: remap the path, read the bytes, post them with the address query
parameter, and normalize the three status outcomes; any raise inside the
branch becomes a Failed-to-write error result. -/
def writeMemBinaryBranch (env : Env) (st : Conn) (address fpV : PyVal) : DispatchOut :=
  match fpV with
  | .str fp0 =>
    let fp := remapWorkspace env.fs fp0
    match env.fs.readFile fp with
    | .error e => ⟨st, [], .result (pyErrors ["Failed to write binary data from " ++ fp ++ ": " ++ e])⟩
    | .ok bytes =>
      let req : HttpRequest :=
        ⟨"POST", optApi st ++ "/machine:writemem", [("address", address)], some (.rawBody bytes)⟩
      let okMsg := "Successfully wrote " ++ toString bytes.length ++
        " bytes to address $" ++ pyStrOf address
      match env.net req with
      | .resp204 => ⟨st, [req], .result (.dict [("ok", .bool true), ("message", .str okMsg)])⟩
      | .resp200json (.dict kvs2) =>
        ⟨st, [req], .result (.dict (dictSet kvs2 "message" (.str okMsg)))⟩
      | .resp200json _ => ⟨st, [req], .result (.dict [("ok", .bool true), ("message", .str okMsg)])⟩
      | .resp200badjson _ => ⟨st, [req], .result (.dict [("ok", .bool true), ("message", .str okMsg)])⟩
      | .resp200other _ => ⟨st, [req], .result (.dict [("ok", .bool true), ("message", .str okMsg)])⟩
      | .respOther status body =>
        ⟨st, [req], .result (pyErrors ["HTTP " ++ toString status ++ ": " ++ body])⟩
      | .netFail e =>
        ⟨st, [req], .result (pyErrors ["Failed to write binary data from " ++ fp ++ ": " ++ e])⟩
  | _ =>
    ⟨st, [], .result (pyErrors ["Failed to write binary data from " ++ pyStrOf fpV ++
      ": " ++ typeErrMsg])⟩

/-- Optional query parameter added when the key is present in the argument
bag (the membership checks of the create-image branches). -/
def optParam (args : PyVal) (k : String) : List (String × PyVal) :=
  match pyGet args k with
  | some v => [(k, v)]
  | Option.none => []

/-- The if/elif dispatch chain of UltimateHandler.call_tool for a string
tool name, in source order. -/
def dispatchStr (env : Env) (st : Conn) (s : String) (args : PyVal) : DispatchOut :=
  if s = "ultimate_set_connection" then
    withArg st args "hostname" fun hostname =>
      let port := pyGet args "port"
      let url :=
        if truthyOpt port then
          "http://" ++ pyStrOf hostname ++ ":" ++ pyStrOf (port.getD .pynone)
        else "http://" ++ pyStrOf hostname
      let st2 := set_base_url st url
      ⟨st2, [], .early (.dict [("ok", .bool true),
        ("message", .str ("Connection set to " ++ optBase st2))])⟩
  else if s = "ultimate_get_connection" then
    ⟨st, [], .early (.dict [("base_url",
      match st.base_url with
      | Option.none => PyVal.pynone
      | some b => .str b)])⟩
  else if s = "ultimate_version" then
    mrStep env st "GET" "version" [] Option.none
  else if s = "ultimate_play_sid" then
    withArg st args "file" fun fileV =>
      playSidBranch env st fileV (pyGet args "song_number")
  else if s = "ultimate_play_mod" then
    withArg st args "file" fun fileV =>
      mrStep env st "PUT" "runners:modplay" [("file", fileV)] Option.none
  else if s = "ultimate_load_program" then
    withArg st args "file" fun fileV =>
      mrStep env st "PUT" "runners:load_prg" [("file", fileV)] Option.none
  else if s = "ultimate_run_program" then
    withArg st args "file" fun fileV =>
      mrStep env st "PUT" "runners:run_prg" [("file", fileV)] Option.none
  else if s = "ultimate_run_prg_binary" then
    runPrgBinaryBranch env st args
  else if s = "ultimate_run_cartridge" then
    withArg st args "file" fun fileV =>
      mrStep env st "PUT" "runners:run_crt" [("file", fileV)] Option.none
  else if s = "ultimate_get_config_categories" then
    mrStep env st "GET" "configs" [] Option.none
  else if s = "ultimate_get_config_category" then
    withArg st args "category" fun category =>
      mrStep env st "GET" ("configs/" ++ pyStrOf category) [] Option.none
  else if s = "ultimate_get_config_item" then
    withArg st args "category" fun category =>
    withArg st args "item" fun item =>
      mrStep env st "GET" ("configs/" ++ pyStrOf category ++ "/" ++ pyStrOf item) [] Option.none
  else if s = "ultimate_set_config_item" then
    withArg st args "category" fun category =>
    withArg st args "item" fun item =>
    withArg st args "value" fun value =>
      mrStep env st "PUT" ("configs/" ++ pyStrOf category ++ "/" ++ pyStrOf item)
        [("value", value)] Option.none
  else if s = "ultimate_mount_disk" then
    withArg st args "drive" fun drive =>
    withArg st args "file" fun fileV =>
      mrStep env st "PUT" ("drives/" ++ pyStrOf drive ++ ":mount") [("image", fileV)] Option.none
  else if s = "ultimate_unmount_disk" then
    withArg st args "drive" fun drive =>
      mrStep env st "PUT" ("drives/" ++ pyStrOf drive ++ ":remove") [] Option.none
  else if s = "ultimate_turn_drive_on" then
    withArg st args "drive" fun drive =>
      mrStep env st "PUT" ("drives/" ++ pyStrOf drive ++ ":on") [] Option.none
  else if s = "ultimate_turn_drive_off" then
    withArg st args "drive" fun drive =>
      mrStep env st "PUT" ("drives/" ++ pyStrOf drive ++ ":off") [] Option.none
  else if s = "ultimate_create_d64" then
    withArg st args "path" fun path =>
      mrStep env st "PUT" ("files/" ++ pyStrOf path ++ ":create_d64")
        (optParam args "tracks" ++ optParam args "diskname") Option.none
  else if s = "ultimate_create_d71" then
    withArg st args "path" fun path =>
      mrStep env st "PUT" ("files/" ++ pyStrOf path ++ ":create_d71")
        (optParam args "diskname") Option.none
  else if s = "ultimate_create_d81" then
    withArg st args "path" fun path =>
      mrStep env st "PUT" ("files/" ++ pyStrOf path ++ ":create_d81")
        (optParam args "diskname") Option.none
  else if s = "ultimate_save_config" then
    mrStep env st "PUT" "configs:save_to_flash" [] Option.none
  else if s = "ultimate_load_config" then
    mrStep env st "PUT" "configs:load_from_flash" [] Option.none
  else if s = "ultimate_reset_config" then
    mrStep env st "PUT" "configs:reset_to_default" [] Option.none
  else if s = "ultimate_read_memory" then
    withArg st args "address" fun address =>
      let length := (pyGet args "length").getD (.int 256)
      mrStep env st "GET" "machine:readmem" [("address", address), ("length", length)] Option.none
  else if s = "ultimate_write_memory" then
    withArg st args "address" fun address =>
    withArg st args "data" fun data =>
      mrStep env st "PUT" "machine:writemem" [("address", address), ("data", data)] Option.none
  else if s = "ultimate_write_memory_binary" then
    withArg st args "address" fun address =>
    withArg st args "file_path" fun fpV =>
      writeMemBinaryBranch env st address fpV
  else if s = "ultimate_reset_machine" then
    mrStep env st "PUT" "machine:reset" [] Option.none
  else if s = "ultimate_power_off" then
    mrStep env st "PUT" "machine:poweroff" [] Option.none
  else if s = "ultimate_get_machine_info" then
    mrStep env st "GET" "machine:info" [] Option.none
  else if s = "ultimate_get_machine_state" then
    mrStep env st "GET" "machine:state" [] Option.none
  else if s = "ultimate_soft_reset" then
    mrStep env st "PUT" "runners:load_prg" [("file", .str "")] Option.none
  else if s = "ultimate_reboot_device" then
    mrStep env st "PUT" "machine:reboot" [] Option.none
  else if s = "ultimate_set_drive_mode" then
    withArg st args "drive" fun drive =>
    withArg st args "mode" fun mode =>
      mrStep env st "PUT" ("drives/" ++ pyStrOf drive ++ ":set_mode") [("mode", mode)] Option.none
  else if s = "ultimate_load_drive_rom" then
    withArg st args "drive" fun drive =>
    withArg st args "file" fun fileV =>
      mrStep env st "PUT" ("drives/" ++ pyStrOf drive ++ ":load_rom") [("file", fileV)] Option.none
  else if s = "ultimate_get_file_info" then
    withArg st args "path" fun path =>
      mrStep env st "GET" ("files/" ++ pyStrOf path ++ ":info") [] Option.none
  else if s = "ultimate_create_dnp" then
    withArg st args "path" fun path =>
    withArg st args "tracks" fun tracks =>
      mrStep env st "PUT" ("files/" ++ pyStrOf path ++ ":create_dnp")
        (("tracks", tracks) :: optParam args "diskname") Option.none
  else if s = "ultimate_start_stream" then
    withArg st args "stream" fun stream =>
    withArg st args "ip" fun ip =>
      mrStep env st "PUT" ("streams/" ++ pyStrOf stream ++ ":start") [("ip", ip)] Option.none
  else if s = "ultimate_stop_stream" then
    withArg st args "stream" fun stream =>
      mrStep env st "PUT" ("streams/" ++ pyStrOf stream ++ ":stop") [] Option.none
  else if s = "ultimate_bulk_config_update" then
    withArg st args "config" fun config =>
      mrStep env st "POST" "configs" [] (some config)
  else
    ⟨st, [], .result (pyErrors ["Unknown tool: " ++ s])⟩

/-- Tool dispatch on an arbitrary tool-name value: a non-string name never
equals any of the string literals of the chain and falls through to the
unknown-tool result. -/
def call_tool_dispatch (env : Env) (st : Conn) (name : PyVal) (args : PyVal) : DispatchOut :=
  match name with
  | .str s => dispatchStr env st s args
  | v => ⟨st, [], .result (pyErrors ["Unknown tool: " ++ pyStrOf v])⟩

/-- Python str.join over the errors value, with the behaviours join has on
each shape: lists must contain only strings, a string joins its characters,
a dict joins its keys, anything else raises. -/
def strsOf : List PyVal → Except String (List String)
  | [] => .ok []
  | .str s :: rest =>
    match strsOf rest with
    | .ok ss => .ok (s :: ss)
    | .error e => .error e
  | _ :: _ => .error typeErrMsg

/-- The errors join of the common rendering. -/
def joinErrs : PyVal → Except String String
  | .list xs =>
    match strsOf xs with
    | .ok ss => .ok (joinWith ", " ss)
    | .error e => .error e
  | .str s => .ok (joinWith ", " (s.data.map String.singleton))
  | .dict kvs => .ok (joinWith ", " (kvs.map Prod.fst))
  | _ => .error typeErrMsg

/-- The common rendering of a fall-through result dict: a truthy errors
entry renders as one Errors line, otherwise the dict without the errors key
is dumped as indented JSON; a non-dict result raises (membership test,
subscript or items() on a non-dict). -/
def renderResult : PyVal → Except String String
  | .dict kvs =>
    match lookupArg kvs "errors" with
    | some errs =>
      if truthy errs then
        match joinErrs errs with
        | .ok j => .ok ("Errors: " ++ j)
        | .error e => .error e
      else .ok (pyDump (.dict (removeKey kvs "errors")))
    | Option.none => .ok (pyDump (.dict kvs))
  | _ => .error typeErrMsg

/-- The CallToolResult the handler returns: its rendered text content and
the isError flag of the mcp result type.  The flag defaults to false and
the source constructs every CallToolResult without passing it, so it is
false on every path. -/
structure CallToolResultE where
  text : String
  isError : Bool
deriving Repr, DecidableEq

/-- Full effect of one UltimateHandler.call_tool invocation. -/
structure CallOut where
  st : Conn
  reqs : List HttpRequest
  res : CallToolResultE
deriving Repr

/-- UltimateHandler.call_tool: dispatch, then the common rendering; the
outer except converts any raise into an Error text result, so the function
always returns a CallToolResult to its caller. -/
def call_tool (env : Env) (st : Conn) (name : PyVal) (args : PyVal) : CallOut :=
  let d := call_tool_dispatch env st name args
  match d.out with
  | .raised e => ⟨d.st, d.reqs, ⟨"Error: " ++ e, false⟩⟩
  | .early r => ⟨d.st, d.reqs, ⟨pyDump r, false⟩⟩
  | .result r =>
    match renderResult r with
    | .ok text => ⟨d.st, d.reqs, ⟨text, false⟩⟩
    | .error e => ⟨d.st, d.reqs, ⟨"Error: " ++ e, false⟩⟩

/-- The fixed initialize response of the SSE message loop. -/
def initializeResponse (msgId : PyVal) : PyVal :=
  .dict [("jsonrpc", .str "2.0"), ("id", msgId),
    ("result", .dict [
      ("protocolVersion", .str "2024-11-05"),
      ("capabilities", .dict [("tools", .dict [])]),
      ("serverInfo", .dict [
        ("name", .str "ultimate64-mcp-sse"),
        ("version", .str "1.0.0")])])]

/-- The tools/list response of the SSE message loop: one entry per catalog
tool (each source entry carries name, description and inputSchema; the
latter two are elided with the catalog, see ToolDef). -/
def toolsListResponse (msgId : PyVal) : PyVal :=
  .dict [("jsonrpc", .str "2.0"), ("id", msgId),
    ("result", .dict [("tools",
      .list (toolCatalog.map fun t => .dict [("name", .str t.name)]))])]

/-- The tools/call response: the rendered CallToolResult content re-encoded
as one text block under a JSON-RPC result (never under an error). -/
def toolCallResponse (msgId : PyVal) (res : CallToolResultE) : PyVal :=
  .dict [("jsonrpc", .str "2.0"), ("id", msgId),
    ("result", .dict [("content",
      .list [.dict [("type", .str "text"), ("text", .str res.text)]])])]

/-- The method-not-found error response, correlated by the inbound id. -/
def methodNotFoundResponse (msgId : PyVal) (methodText : String) : PyVal :=
  .dict [("jsonrpc", .str "2.0"), ("id", msgId),
    ("error", .dict [("code", .int (-32601)),
      ("message", .str ("Method not found: " ++ methodText))])]

/-- One iteration of WebServer.handle_sse.process_messages on a parsed
message: the new handler state, the device requests issued, and the
JSON-RPC messages emitted to the outbound stream.  A raise while handling a
message (a non-dict envelope, a non-dict params value, a non-string truthy
method) is caught by the loop and logged with no response emitted. -/
def process_message (env : Env) (st : Conn) (v : PyVal) :
    Conn × List HttpRequest × List PyVal :=
  match v with
  | .dict msgd =>
    let msgId := (lookupArg msgd "id").getD .pynone
    match lookupArg msgd "method" with
    | some (.str m) =>
      if m = "initialize" then (st, [], [initializeResponse msgId])
      else if m = "tools/list" then (st, [], [toolsListResponse msgId])
      else if m = "tools/call" then
        match (lookupArg msgd "params").getD (.dict []) with
        | .dict params =>
          let name := (lookupArg params "name").getD .pynone
          let args := (lookupArg params "arguments").getD (.dict [])
          let c := call_tool env st name args
          (c.st, c.reqs, [toolCallResponse msgId c.res])
        | _ => (st, [], [])
      else if ¬ m = "" ∧ pythonStartsWith m "notifications/" then (st, [], [])
      else (st, [], [methodNotFoundResponse msgId m])
    | some mv =>
      if truthy mv then (st, [], [])
      else (st, [], [methodNotFoundResponse msgId (pyStrOf mv)])
    | Option.none => (st, [], [methodNotFoundResponse msgId "None"])
  | _ => (st, [], [])

/-- The message loop over the inbound stream, in arrival order. -/
def process_messages (env : Env) : Conn → List PyVal → Conn × List HttpRequest × List PyVal
  | st, [] => (st, [], [])
  | st, m :: ms =>
    let r := process_message env st m
    let rest := process_messages env r.1 ms
    (rest.1, r.2.1 ++ rest.2.1, r.2.2 ++ rest.2.2)

/-- One SSE session as the registry tracks it; the inbound queue holds the
parsed messages submitted through the POST endpoint (the JSON round trip
between the endpoint and the loop is the identity at the value level). -/
structure SessionSt where
  inbound : List PyVal
deriving Repr

/-- The session registry self.sessions, keyed by session id. -/
abbrev Registry := List (String × SessionSt)

/-- Binding of a session id in the registry. -/
def lookupSession : Registry → String → Option SessionSt
  | [], _ => Option.none
  | (k, s) :: rest, sid => if k = sid then some s else lookupSession rest sid

/-- Registration of a session (dict assignment at connection setup). -/
def registerSession : Registry → String → SessionSt → Registry
  | [], sid, s => [(sid, s)]
  | (k, s2) :: rest, sid, s =>
    if k = sid then (k, s) :: rest else (k, s2) :: registerSession rest sid s

/-- The finally block of the message loop: when the owning connection
ends, the registry entry of the session is deleted. -/
def sessionClosed (reg : Registry) (sid : String) : Registry :=
  reg.filter (fun kv => ¬ kv.1 = sid)

/-- Enqueue one submitted message into the read stream of its session. -/
def enqueueSession : Registry → String → PyVal → Registry
  | [], _, _ => []
  | (k, s) :: rest, sid, v =>
    if k = sid then (k, ⟨s.inbound ++ [v]⟩) :: rest
    else (k, s) :: enqueueSession rest sid v

/-- An HTTP response of the web endpoints: status code and JSON body. -/
structure HttpRespE where
  status : Nat
  body : PyVal
deriving Repr

/-- WebServer.handle_messages: require the session_id query parameter
(absent or empty is falsy), reject ids without a live registry entry with
404, validate the JSON-RPC envelope, then enqueue; a raise while reading
the body returns 500. -/
def handle_messages (reg : Registry) (sid? : Option String)
    (body : Except String PyVal) : Registry × HttpRespE :=
  let missing : Registry × HttpRespE :=
    (reg, ⟨400, .dict [("error", .str "Missing session_id query parameter")]⟩)
  match sid? with
  | Option.none => missing
  | some sid =>
    if sid = "" then missing
    else if (lookupSession reg sid).isNone then
      (reg, ⟨404, .dict [("error", .str "Session not found or closed")]⟩)
    else
      match body with
      | .error e => (reg, ⟨500, .dict [("error", .str e)]⟩)
      | .ok v =>
        match v with
        | .dict kvs =>
          if (lookupArg kvs "jsonrpc").isSome then
            (enqueueSession reg sid v, ⟨200, .dict [("status", .str "accepted")]⟩)
          else (reg, ⟨400, .dict [("error", .str "Missing jsonrpc field")]⟩)
        | _ => (reg, ⟨400, .dict [("error", .str "Message must be a JSON object")]⟩)

/-- One inbound request of the upload endpoint: its content type and the
three body readings the source may perform on it. -/
structure UploadRequest where
  contentType : String
  formFile : Option (List Nat)
  rawBody : List Nat
  jsonBody : Except String PyVal

/-- The fixed unsupported-content-type message of the upload endpoint. -/
def unsupportedTypeMsg : String :=
  "Unsupported content type. Use multipart/form-data, application/octet-stream, or application/json with base64"

/-- The decode stage of WebServer.handle_upload_prg: the payload bytes, or
the early response ending the request (missing form field, unsupported
content type, missing or invalid base64 field, or a raise mapped to 500 by
the outer except). -/
def decodeUploadPayload (env : Env) (r : UploadRequest) : Except HttpRespE (List Nat) :=
  if pythonIn "multipart/form-data" r.contentType then
    match r.formFile with
    | Option.none =>
      .error ⟨400, .dict [("error", .str ("Missing " ++ sq ++ "file" ++ sq ++ " field"))]⟩
    | some d => .ok d
  else if pythonIn "application/octet-stream" r.contentType ∨
      pythonIn "application/x-binary" r.contentType then
    .ok r.rawBody
  else if pythonIn "application/json" r.contentType then
    match r.jsonBody with
    | .error e => .error ⟨500, .dict [("error", .str e)]⟩
    | .ok (.dict kvs) =>
      match lookupArg kvs "prg_data_base64" with
      | some (.str b64s) =>
        match env.b64 b64s with
        | .ok d => .ok d
        | .binasciiErr e =>
          .error ⟨400, .dict [("error", .str ("Invalid base64 data: " ++ e))]⟩
        | .otherErr e => .error ⟨500, .dict [("error", .str e)]⟩
      | some _ => .error ⟨500, .dict [("error", .str typeErrMsg)]⟩
      | Option.none =>
        .error ⟨400, .dict [("error", .str ("Missing " ++ sq ++ "prg_data_base64" ++ sq ++ " field"))]⟩
    | .ok (.str s) =>
      if pythonIn "prg_data_base64" s then .error ⟨500, .dict [("error", .str typeErrMsg)]⟩
      else .error ⟨400, .dict [("error", .str ("Missing " ++ sq ++ "prg_data_base64" ++ sq ++ " field"))]⟩
    | .ok (.list xs) =>
      if xs.any (fun x => match x with | .str s2 => s2 = "prg_data_base64" | _ => false) then
        .error ⟨500, .dict [("error", .str typeErrMsg)]⟩
      else .error ⟨400, .dict [("error", .str ("Missing " ++ sq ++ "prg_data_base64" ++ sq ++ " field"))]⟩
    | .ok _ => .error ⟨500, .dict [("error", .str typeErrMsg)]⟩
  else .error ⟨400, .dict [("error", .str unsupportedTypeMsg)]⟩

/-- The diagnostic load address of a PRG payload: little-endian 16-bit
value of the first two bytes; logged only, with no effect on the result. -/
def loadAddr (prg : List Nat) : Nat :=
  match prg with
  | b0 :: b1 :: _ => Nat.lor b0 (b1 <<< 8)
  | _ => 0

/-- The success body of the upload endpoint. -/
def uploadSuccessBody (prg : List Nat) (responseData : PyVal) : PyVal :=
  .dict [("success", .bool true),
    ("message", .str ("Running PRG (" ++ toString prg.length ++ " bytes)")),
    ("size_bytes", .int prg.length),
    ("response", responseData)]

/-- The failure body of the upload endpoint, with the device status. -/
def uploadFailBody (status : Nat) (details : String) : PyVal :=
  .dict [("success", .bool false),
    ("error", .str ("Failed to run PRG: HTTP " ++ toString status)),
    ("details", .str details)]

/-- WebServer.handle_upload_prg: decode, reject empty payloads with 400,
reject an unconfigured connection with 400, then forward the payload as
one upload-and-run post, preserving the device status on failure. -/
def handle_upload_prg (env : Env) (st : Conn) (r : UploadRequest) :
    HttpRespE × List HttpRequest :=
  match decodeUploadPayload env r with
  | .error resp => (resp, [])
  | .ok prg =>
    if prg.isEmpty then (⟨400, .dict [("error", .str "No PRG data provided")]⟩, [])
    else
      match st.api_base with
      | Option.none =>
        (⟨400, .dict [("success", .bool false), ("error", .str notConfiguredMsg)]⟩, [])
      | some base =>
        if base = "" then
          (⟨400, .dict [("success", .bool false), ("error", .str notConfiguredMsg)]⟩, [])
        else
          let req : HttpRequest := ⟨"POST", base ++ "/runners:run_prg", [], some (.rawBody prg)⟩
          match env.net req with
          | .resp200json v => (⟨200, uploadSuccessBody prg v⟩, [req])
          | .resp200badjson _ =>
            (⟨200, uploadSuccessBody prg (.dict [("message", .str "Program started")])⟩, [req])
          | .resp200other _ =>
            (⟨200, uploadSuccessBody prg (.dict [("message", .str "Program started")])⟩, [req])
          | .resp204 => (⟨204, uploadFailBody 204 ""⟩, [req])
          | .respOther status body => (⟨status, uploadFailBody status body⟩, [req])
          | .netFail e => (⟨500, .dict [("error", .str e)]⟩, [req])

/-- The connection-changing operations: a direct set_base_url call (startup
URL or C64_HOST) and the set_connection tool with an arbitrary argument
value. -/
inductive ConnOp where
  | conf (s : String)
  | setConn (args : PyVal)

/-- Effect of one connection operation on the handler state. -/
def applyOp (env : Env) (st : Conn) : ConnOp → Conn
  | .conf s => set_base_url st s
  | .setConn args => (call_tool env st (.str "ultimate_set_connection") args).st

/-- A sequence of connection operations. -/
def runOps (env : Env) : Conn → List ConnOp → Conn
  | st, [] => st
  | st, op :: ops => runOps env (applyOp env st op) ops

/-- Trailing-slash test used by the connection invariant. -/
def endsWithSlash (s : String) : Bool := s.data.getLast? = some (Char.ofNat 47)

/-- The connection-state invariant: both fields absent, or both present
with a scheme-prefixed slash-free base URL and the derived /v1 API base. -/
def connInv (st : Conn) : Prop :=
  (st.base_url = Option.none ∧ st.api_base = Option.none) ∨
  (∃ b, st.base_url = some b ∧ pythonStartsWith b "http" = true ∧
    endsWithSlash b = false ∧ st.api_base = some (b ++ "/v1"))

/-- Filesystem oracle on which nothing exists and every read fails. -/
def emptyFs : Fs := ⟨fun _ => false, fun _ => .error "No such file or directory"⟩

/-- Environment whose device is unreachable, used for concrete witnesses. -/
def testEnv : Env := ⟨fun _ => .netFail "connection refused", fun _ => .clientErr "offline",
  emptyFs, fun _ => .binasciiErr "bad padding", fun _ => .binasciiErr "bad padding"⟩

/-- The requests call_tool issues are exactly the requests its dispatch
issued; the rendering stage issues none. -/
theorem call_tool_reqs (env : Env) (st : Conn) (name args : PyVal) :
    (call_tool env st name args).reqs = (call_tool_dispatch env st name args).reqs := by
  unfold call_tool
  generalize call_tool_dispatch env st name args = d
  obtain ⟨st2, reqs2, out2⟩ := d
  cases out2 with
  | raised e => rfl
  | early r => rfl
  | result r => cases hr : renderResult r <;> simp [hr]

/-- The state call_tool leaves behind is the state its dispatch left. -/
theorem call_tool_st (env : Env) (st : Conn) (name args : PyVal) :
    (call_tool env st name args).st = (call_tool_dispatch env st name args).st := by
  unfold call_tool
  generalize call_tool_dispatch env st name args = d
  obtain ⟨st2, reqs2, out2⟩ := d
  cases out2 with
  | raised e => rfl
  | early r => rfl
  | result r => cases hr : renderResult r <;> simp [hr]

/-- A dispatch that raised is rendered by the outer except of call_tool as
an Error text result. -/
theorem call_tool_of_raised (env : Env) (st st2 : Conn) (name args : PyVal)
    (reqs : List HttpRequest) (e : String)
    (h : call_tool_dispatch env st name args = ⟨st2, reqs, .raised e⟩) :
    call_tool env st name args = ⟨st2, reqs, ⟨"Error: " ++ e, false⟩⟩ := by
  unfold call_tool
  rw [h]

/-- A dispatch that fell through with a result whose rendering succeeds. -/
theorem call_tool_of_result_ok (env : Env) (st st2 : Conn) (name args : PyVal)
    (reqs : List HttpRequest) (r : PyVal) (text : String)
    (hd : call_tool_dispatch env st name args = ⟨st2, reqs, .result r⟩)
    (hr : renderResult r = .ok text) :
    call_tool env st name args = ⟨st2, reqs, ⟨text, false⟩⟩ := by
  unfold call_tool
  rw [hd]
  simp [hr]

/-- A one-element errors list renders as a single Errors line. -/
theorem renderResult_errors_single (m : String) :
    renderResult (pyErrors [m]) = .ok ("Errors: " ++ m) := rfl

/-- Dropping elements cannot pass a non-matching element. -/
theorem dropWhile_append_cons {α : Type} (p : α → Bool) (xs : List α) (y : α) (zs : List α)
    (hy : p y = false) :
    (xs ++ y :: zs).dropWhile p = xs.dropWhile p ++ y :: zs := by
  induction xs with
  | nil => simp [List.dropWhile_cons, hy]
  | cons a as ih =>
    cases hpa : p a with
    | true => simpa [List.dropWhile_cons, hpa] using ih
    | false => simp [List.dropWhile_cons, hpa]

/-- Stripping from the right stops no earlier than the last non-matching
character, so everything before it survives. -/
theorem rstripCore_append_cons (c y : Char) (l1 l2 : List Char) (hy : ¬ y = c) :
    rstripCore c (l1 ++ y :: l2) = l1 ++ y :: rstripCore c l2 := by
  unfold rstripCore
  rw [List.reverse_append, List.reverse_cons, List.append_assoc, List.singleton_append]
  rw [dropWhile_append_cons _ _ _ _ (by simp [hy])]
  simp

/-- The stripped string never ends with the stripped character. -/
theorem rstripCore_getLast_ne (c : Char) (l : List Char) :
    ¬ (rstripCore c l).getLast? = some c := by
  intro h
  have hne : rstripCore c l ≠ [] := by
    intro he
    rw [he] at h
    simp at h
  have hlast := List.rdropWhile_last_not (fun a => decide (a = c)) l (by exact hne)
  rw [List.getLast?_eq_getLast _ hne] at h
  have hc : (rstripCore c l).getLast hne = c := Option.some_injective _ h
  exact hlast (by exact decide_eq_true hc)

/-- The normalized base URL has no trailing slash. -/
theorem normalized_no_slash (s : String) : endsWithSlash (rstripSlash s) = false := by
  have h := rstripCore_getLast_ne (Char.ofNat 47) s.data
  simp [endsWithSlash, rstripSlash, h]

/-- Right-stripping slashes keeps an http prefix in place. -/
theorem rstripCore_http (r : List Char) :
    rstripCore (Char.ofNat 47) ('h' :: 't' :: 't' :: 'p' :: r) =
      'h' :: 't' :: 't' :: 'p' :: rstripCore (Char.ofNat 47) r := by
  have h := rstripCore_append_cons (Char.ofNat 47) 'p' ['h', 't', 't'] r (by decide)
  simpa using h

/-- A URL that already starts with http still does after stripping. -/
theorem startsWith_http_rstrip (u : String) (h : pythonStartsWith u "http" = true) :
    pythonStartsWith (rstripSlash u) "http" = true := by
  obtain ⟨t, ht⟩ := List.isPrefixOf_iff_prefix.mp h
  have hu : u.data = 'h' :: 't' :: 't' :: 'p' :: t := by
    rw [← ht]
    rfl
  show List.isPrefixOf "http".data (rstripCore (Char.ofNat 47) u.data) = true
  rw [hu, rstripCore_http]
  simp [List.isPrefixOf]

/-- A scheme-prefixed URL starts with http after stripping. -/
theorem startsWith_http_prefixed (url : String) :
    pythonStartsWith (rstripSlash ("http://" ++ url)) "http" = true := by
  have hd : ("http://" ++ url).data =
      'h' :: 't' :: 't' :: 'p' :: (':' :: '/' :: '/' :: url.data) := by
    rw [String.data_append]
    rfl
  show List.isPrefixOf "http".data (rstripSlash ("http://" ++ url)).data = true
  show List.isPrefixOf "http".data (rstripCore (Char.ofNat 47) ("http://" ++ url).data) = true
  rw [hd, rstripCore_http]
  simp [List.isPrefixOf]

/-- Every set_base_url call establishes the connection invariant. -/
theorem set_base_url_inv (st : Conn) (url : String) : connInv (set_base_url st url) := by
  right
  refine ⟨rstripSlash (if pythonStartsWith url "http" then url else "http://" ++ url),
    rfl, ?_, normalized_no_slash _, rfl⟩
  cases hu : pythonStartsWith url "http" with
  | false =>
    simp only [hu, Bool.false_eq_true, if_false]
    exact startsWith_http_prefixed url
  | true =>
    simp only [hu, if_true]
    exact startsWith_http_rstrip url hu

/-- The set_connection tool either runs set_base_url or leaves the state
untouched after a raise, so it preserves the connection invariant. -/
theorem applyOp_inv (env : Env) (st : Conn) (op : ConnOp) (h : connInv st) :
    connInv (applyOp env st op) := by
  cases op with
  | conf s => exact set_base_url_inv st s
  | setConn args =>
    show connInv (call_tool env st (.str "ultimate_set_connection") args).st
    rw [call_tool_st]
    cases args with
    | dict kvs =>
      cases hl : lookupArg kvs "hostname" with
      | none =>
        simp [call_tool_dispatch, dispatchStr, withArg, hl]
        exact h
      | some v =>
        simp [call_tool_dispatch, dispatchStr, withArg, hl]
        exact set_base_url_inv st _
    | str s => simpa [call_tool_dispatch, dispatchStr, withArg] using h
    | int n => simpa [call_tool_dispatch, dispatchStr, withArg] using h
    | bool b => simpa [call_tool_dispatch, dispatchStr, withArg] using h
    | list xs => simpa [call_tool_dispatch, dispatchStr, withArg] using h
    | pynone => simpa [call_tool_dispatch, dispatchStr, withArg] using h

/-- The invariant is preserved along any operation sequence. -/
theorem runOps_inv (env : Env) (ops : List ConnOp) (st : Conn) (h : connInv st) :
    connInv (runOps env st ops) := by
  induction ops generalizing st with
  | nil => exact h
  | cons op ops ih => exact ih _ (applyOp_inv env st op h)

/-- C10: after any sequence of configure / set_connection operations from
any startup configuration, either no connection is configured (both the
base URL and the API base are absent) or both are present, the base URL
starts with http and has no trailing slash, and the API base equals the
base URL with /v1 appended. -/
theorem connection_state_invariant (env : Env) (envVar : Option String) (ops : List ConnOp) :
    connInv (runOps env (handlerInit envVar) ops) := by
  apply runOps_inv
  unfold handlerInit
  cases get_c64_host_from_env envVar with
  | none => exact Or.inl ⟨rfl, rfl⟩
  | some b => exact set_base_url_inv initConn b

/-- C9: configure (set_base_url) prefixes the scheme exactly when the host
specification does not already start with http, strips every trailing
slash, leaves a slash-free http-prefixed base with the derived /v1 API
base, depends only on its argument, and is idempotent: configuring twice
with the same endpoint yields the same request targets as configuring
once. -/
theorem configure_normalizes_and_idempotent (st st2 : Conn) (url : String) :
    set_base_url (set_base_url st url) url = set_base_url st url ∧
    set_base_url st url = set_base_url st2 url ∧
    (pythonStartsWith url "http" = false →
      (set_base_url st url).base_url = some (rstripSlash ("http://" ++ url))) ∧
    (pythonStartsWith url "http" = true →
      (set_base_url st url).base_url = some (rstripSlash url)) ∧
    (∀ b, (set_base_url st url).base_url = some b →
      pythonStartsWith b "http" = true ∧ endsWithSlash b = false ∧
        (set_base_url st url).api_base = some (b ++ "/v1")) := by
  refine ⟨rfl, rfl, ?_, ?_, ?_⟩
  · intro h
    simp [set_base_url, h]
  · intro h
    simp [set_base_url, h]
  · intro b hb
    rcases set_base_url_inv st url with ⟨h1, _⟩ | ⟨b2, h1, h2, h3, h4⟩
    · rw [hb] at h1
      cases h1
    · rw [hb] at h1
      cases Option.some_injective _ h1
      exact ⟨h2, h3, h4⟩

/-- Witness for C9 at a concrete host specification. -/
theorem configure_normalizes_and_idempotent_witness :
    set_base_url (set_base_url initConn "192.168.1.64/") "192.168.1.64/" =
      set_base_url initConn "192.168.1.64/" ∧
    (set_base_url initConn "192.168.1.64/").base_url =
      some (rstripSlash ("http://" ++ "192.168.1.64/")) ∧
    pythonStartsWith "http://192.168.1.64" "http" = true ∧
    endsWithSlash "http://192.168.1.64" = false :=
  ⟨(configure_normalizes_and_idempotent initConn initConn "192.168.1.64/").1,
   (configure_normalizes_and_idempotent initConn initConn "192.168.1.64/").2.2.1 (by decide),
   ((configure_normalizes_and_idempotent initConn initConn "192.168.1.64/").2.2.2.2
      "http://192.168.1.64" (by decide)).1,
   ((configure_normalizes_and_idempotent initConn initConn "192.168.1.64/").2.2.2.2
      "http://192.168.1.64" (by decide)).2.1⟩

/-- C3: make_request is determined by the connection state and the device
response: an unconfigured connection yields the fixed not-configured error
result with no request issued; 204 yields the empty-success marker; 200
with a JSON content type yields the parsed body verbatim; 200 with any
other content type yields the hex-encoded bytes under the data field; any
other status yields the HTTP error carrying status and body text; and a
transport failure yields the Request-failed error instead of propagating. -/
theorem make_request_result_cases (env : Env) (st : Conn) (method endpoint : String)
    (params : List (String × PyVal)) (data : Option PyVal) :
    (st.api_base = Option.none →
      make_request env st method endpoint params data = (pyErrors [notConfiguredMsg], [])) ∧
    (∀ base, st.api_base = some base → ¬ base = "" →
      ∀ req : HttpRequest,
        req = ⟨method, base ++ "/" ++ endpoint, params, data.map ReqBody.jsonBody⟩ →
        (env.net req = .resp204 →
          make_request env st method endpoint params data =
            (.dict [("ok", .bool true)], [req])) ∧
        (∀ v, env.net req = .resp200json v →
          make_request env st method endpoint params data = (v, [req])) ∧
        (∀ raw, env.net req = .resp200other raw →
          make_request env st method endpoint params data =
            (.dict [("data", .str (bytesHex raw))], [req])) ∧
        (∀ status body, env.net req = .respOther status body →
          ¬ status = 200 → ¬ status = 204 →
          make_request env st method endpoint params data =
            (pyErrors ["HTTP " ++ toString status ++ ": " ++ body], [req])) ∧
        (∀ e, env.net req = .netFail e →
          make_request env st method endpoint params data =
            (pyErrors ["Request failed: " ++ e], [req]))) := by
  constructor
  · intro h
    simp [make_request, h]
  · intro base hb hbne req hreq
    subst hreq
    refine ⟨fun hn => ?_, fun v hn => ?_, fun raw hn => ?_,
      fun status body hn _ _ => ?_, fun e hn => ?_⟩ <;>
      simp [make_request, hb, hbne, hn]

/-- The connection state after configure("192.168.1.64"). -/
def cfgConn : Conn := set_base_url initConn "192.168.1.64"

/-- Environment whose device answers 204 to everything. -/
def env204 : Env := ⟨fun _ => .resp204, fun _ => .clientErr "offline", emptyFs,
  fun _ => .binasciiErr "bad padding", fun _ => .binasciiErr "bad padding"⟩

/-- Witness for C3: the unconfigured clause and the 204 clause at concrete
inputs. -/
theorem make_request_result_cases_witness :
    make_request env204 initConn "GET" "version" [] Option.none =
      (pyErrors [notConfiguredMsg], []) ∧
    make_request env204 cfgConn "GET" "version" [] Option.none =
      (.dict [("ok", .bool true)],
        [⟨"GET", "http://192.168.1.64/v1/version", [], Option.none⟩]) :=
  ⟨(make_request_result_cases env204 initConn "GET" "version" [] Option.none).1 rfl,
   ((make_request_result_cases env204 cfgConn "GET" "version" [] Option.none).2
      "http://192.168.1.64/v1" rfl (by decide) _ rfl).1 rfl⟩

/-- C5: after configure("192.168.1.64"), the ultimate_read_memory tool with
address D020 and length 1 issues exactly one GET request whose target is
http://192.168.1.64/v1/machine:readmem?address=D020&length=1 (scheme
auto-prefixed, /v1 API base, address and length as query parameters),
whatever the device answers. -/
theorem read_memory_request_scenario (env : Env) :
    (call_tool env (set_base_url initConn "192.168.1.64") (.str "ultimate_read_memory")
        (.dict [("address", .str "D020"), ("length", .int 1)])).reqs =
      [⟨"GET", "http://192.168.1.64/v1/machine:readmem",
        [("address", .str "D020"), ("length", .int 1)], Option.none⟩] ∧
    renderUrl ⟨"GET", "http://192.168.1.64/v1/machine:readmem",
        [("address", .str "D020"), ("length", .int 1)], Option.none⟩ =
      "http://192.168.1.64/v1/machine:readmem?address=D020&length=1" := by
  constructor
  · rw [call_tool_reqs]
    rfl
  · rfl

/-- C4: for every tool name outside the catalog and every argument bag,
call_tool returns normally (through the unknown-tool result) with an error
text that carries the unknown name, issues no request, and leaves the
state unchanged. -/
theorem call_tool_unknown_tool (env : Env) (st : Conn) (args : PyVal) (s : String)
    (hs : ¬ s ∈ catalogNames) :
    call_tool_dispatch env st (.str s) args =
      ⟨st, [], .result (pyErrors ["Unknown tool: " ++ s])⟩ ∧
    call_tool env st (.str s) args =
      ⟨st, [], ⟨"Errors: " ++ ("Unknown tool: " ++ s), false⟩⟩ := by
  have hd : call_tool_dispatch env st (.str s) args =
      ⟨st, [], .result (pyErrors ["Unknown tool: " ++ s])⟩ := by
    simp only [catalogNames, toolCatalog, List.map_cons, List.map_nil, List.mem_cons,
      List.not_mem_nil, or_false] at hs
    push_neg at hs
    obtain ⟨h1, h2, h3, h4, h5, h6, h7, h8, h9, h10, h11, h12, h13, h14, h15, h16, h17,
      h18, h19, h20, h21, h22, h23, h24, h25, h26, h27, h28, h29, h30, h31, h32, h33,
      h34, h35, h36, h37, h38, h39⟩ := hs
    simp [call_tool_dispatch, dispatchStr, h1, h2, h3, h4, h5, h6, h7, h8, h9, h10,
      h11, h12, h13, h14, h15, h16, h17, h18, h19, h20, h21, h22, h23, h24, h25, h26,
      h27, h28, h29, h30, h31, h32, h33, h34, h35, h36, h37, h38, h39]
  exact ⟨hd, call_tool_of_result_ok env st st (.str s) args [] _ _ hd
    (renderResult_errors_single _)⟩

/-- Witness for C4 at a concrete unknown name. -/
theorem call_tool_unknown_tool_witness :
    call_tool testEnv initConn (.str "no_such_tool") (.dict []) =
      ⟨initConn, [], ⟨"Errors: " ++ ("Unknown tool: " ++ "no_such_tool"), false⟩⟩ :=
  (call_tool_unknown_tool testEnv initConn (.dict []) "no_such_tool" (by decide)).2

/-- C1 (code bug): an error outcome of the dispatched operation is not
structurally marked on the returned result.  At the failing input (an
unknown tool name), the dispatch produced an errors list, yet the returned
CallToolResult leaves the isError flag at its false default, and the SSE
front-end wraps the rendered content in a JSON-RPC result response (never
an error response), so the outcome is distinguishable only through the
rendered text. -/
theorem callToolResult_error_not_structurally_marked :
    (call_tool_dispatch testEnv initConn (.str "bogus_tool") (.dict [])).out =
      .result (pyErrors ["Unknown tool: bogus_tool"]) ∧
    (call_tool testEnv initConn (.str "bogus_tool") (.dict [])).res =
      ⟨"Errors: Unknown tool: bogus_tool", false⟩ ∧
    (process_message testEnv initConn (.dict [("jsonrpc", .str "2.0"), ("id", .int 7),
        ("method", .str "tools/call"),
        ("params", .dict [("name", .str "bogus_tool"), ("arguments", .dict [])])])).2.2 =
      [.dict [("jsonrpc", .str "2.0"), ("id", .int 7),
        ("result", .dict [("content", .list [.dict [("type", .str "text"),
          ("text", .str "Errors: Unknown tool: bogus_tool")]])])]] :=
  ⟨rfl, rfl, rfl⟩

/-- A closed session keeps no registry binding. -/
theorem lookupSession_sessionClosed_self (reg : Registry) (sid : String) :
    lookupSession (sessionClosed reg sid) sid = Option.none := by
  induction reg with
  | nil => rfl
  | cons kv rest ih =>
    obtain ⟨k, s⟩ := kv
    by_cases hk : k = sid
    · simpa [sessionClosed, List.filter_cons, hk] using ih
    · simpa [sessionClosed, List.filter_cons, hk, lookupSession] using ih

/-- Closing one session does not disturb the binding of any other. -/
theorem lookupSession_sessionClosed_other (reg : Registry) (sid sid2 : String)
    (h : ¬ sid2 = sid) :
    lookupSession (sessionClosed reg sid) sid2 = lookupSession reg sid2 := by
  induction reg with
  | nil => rfl
  | cons kv rest ih =>
    obtain ⟨k, s⟩ := kv
    have hss : ¬ sid = sid2 := fun e => h e.symm
    by_cases hk : k = sid
    · simpa [sessionClosed, List.filter_cons, hk, lookupSession, hss] using ih
    · by_cases hk2 : k = sid2
      · simp [sessionClosed, List.filter_cons, hk, lookupSession, hk2, h]
      · simpa [sessionClosed, List.filter_cons, hk, lookupSession, hk2] using ih

/-- C6: after the owning SSE connection has closed and its registry entry
was removed, any message submitted with that session id draws the 404
not-found response, the registry is unchanged, and every other session
keeps its binding. -/
theorem closed_session_message_not_found (reg : Registry) (sid : String)
    (body : Except String PyVal) (hsid : ¬ sid = "") :
    handle_messages (sessionClosed reg sid) (some sid) body =
      (sessionClosed reg sid,
        ⟨404, .dict [("error", .str "Session not found or closed")]⟩) ∧
    (∀ sid2, ¬ sid2 = sid →
      lookupSession (sessionClosed reg sid) sid2 = lookupSession reg sid2) := by
  constructor
  · simp [handle_messages, hsid, lookupSession_sessionClosed_self]
  · exact fun sid2 h2 => lookupSession_sessionClosed_other reg sid sid2 h2

/-- Witness for C6 at a concrete closed session. -/
theorem closed_session_message_not_found_witness :
    handle_messages (sessionClosed [("s1", ⟨[]⟩)] "s1") (some "s1")
        (.ok (.dict [("jsonrpc", .str "2.0"), ("id", .int 1),
          ("method", .str "tools/list")])) =
      (sessionClosed [("s1", ⟨[]⟩)] "s1",
        ⟨404, .dict [("error", .str "Session not found or closed")]⟩) :=
  (closed_session_message_not_found [("s1", ⟨[]⟩)] "s1" _ (by decide)).1

/-- C7: a direct-upload request whose decoded payload is empty is answered
with 400 and an error body, and no device request is issued. -/
theorem upload_empty_payload_rejected (env : Env) (st : Conn) (r : UploadRequest)
    (h : decodeUploadPayload env r = .ok []) :
    handle_upload_prg env st r =
      (⟨400, .dict [("error", .str "No PRG data provided")]⟩, []) := by
  simp [handle_upload_prg, h]

/-- Witness for C7: an octet-stream upload with an empty body against a
configured connection. -/
theorem upload_empty_payload_rejected_witness :
    handle_upload_prg testEnv cfgConn
        ⟨"application/octet-stream", Option.none, [], .error "no body"⟩ =
      (⟨400, .dict [("error", .str "No PRG data provided")]⟩, []) :=
  upload_empty_payload_rejected testEnv cfgConn _ rfl

/-- C8: a valid JSON-RPC message whose string method is prefixed with the
notification class is processed with no response emitted; any other string
method outside initialize, tools/list and tools/call draws exactly one
method-not-found error response correlated by the inbound id. -/
theorem sse_notifications_and_unknown_methods (env : Env) (st : Conn)
    (msgd : List (String × PyVal)) (m : String)
    (hm : lookupArg msgd "method" = some (.str m)) :
    (pythonStartsWith m "notifications/" = true →
      process_message env st (.dict msgd) = (st, [], [])) ∧
    (¬ m = "initialize" → ¬ m = "tools/list" → ¬ m = "tools/call" →
      pythonStartsWith m "notifications/" = false →
      process_message env st (.dict msgd) =
        (st, [], [methodNotFoundResponse ((lookupArg msgd "id").getD .pynone) m])) := by
  constructor
  · intro h
    have h1 : ¬ m = "initialize" := by
      intro e
      subst e
      exact absurd h (by decide)
    have h2 : ¬ m = "tools/list" := by
      intro e
      subst e
      exact absurd h (by decide)
    have h3 : ¬ m = "tools/call" := by
      intro e
      subst e
      exact absurd h (by decide)
    have h0 : ¬ m = "" := by
      intro e
      subst e
      exact absurd h (by decide)
    simp [process_message, hm, h1, h2, h3, h0, h]
  · intro h1 h2 h3 h4
    simp [process_message, hm, h1, h2, h3, h4]

/-- Witness for C8: a notification and an unknown method. -/
theorem sse_notifications_and_unknown_methods_witness :
    process_message testEnv initConn (.dict [("jsonrpc", .str "2.0"),
        ("method", .str "notifications/initialized")]) = (initConn, [], []) ∧
    process_message testEnv initConn (.dict [("jsonrpc", .str "2.0"), ("id", .int 3),
        ("method", .str "resources/list")]) =
      (initConn, [], [methodNotFoundResponse (.int 3) "resources/list"]) :=
  ⟨(sse_notifications_and_unknown_methods testEnv initConn
      [("jsonrpc", .str "2.0"), ("method", .str "notifications/initialized")]
      "notifications/initialized" rfl).1 (by decide),
   (sse_notifications_and_unknown_methods testEnv initConn
      [("jsonrpc", .str "2.0"), ("id", .int 3), ("method", .str "resources/list")]
      "resources/list" rfl).2 (by decide) (by decide) (by decide) (by decide)⟩

/-- C2: for every registered tool and every argument bag missing one of
the required arguments of that tool, call_tool returns normally with an
Error text naming a missing required field (the quoted KeyError of the
first failing required subscript), issues no device request, and leaves
the connection state unchanged. -/
theorem call_tool_missing_required_argument (env : Env) (st : Conn) (t : ToolDef)
    (ht : t ∈ toolCatalog) (args : List (String × PyVal))
    (hmiss : ∃ k, k ∈ t.required ∧ lookupArg args k = Option.none) :
    ∃ k, k ∈ t.required ∧ lookupArg args k = Option.none ∧
      call_tool env st (.str t.name) (.dict args) =
        ⟨st, [], ⟨"Error: " ++ (sq ++ k ++ sq), false⟩⟩ := by
  fin_cases ht
  · -- ultimate_set_connection
    obtain ⟨k, hk, hnone⟩ := hmiss
    simp at hk
    subst hk
    exact ⟨"hostname", by simp, hnone, call_tool_of_raised env st st _ _ [] _
      (by simp [call_tool_dispatch, dispatchStr, withArg, hnone])⟩
  · -- ultimate_get_connection
    obtain ⟨k, hk, -⟩ := hmiss
    simp at hk
  · -- ultimate_version
    obtain ⟨k, hk, -⟩ := hmiss
    simp at hk
  · -- ultimate_play_sid
    obtain ⟨k, hk, hnone⟩ := hmiss
    simp at hk
    subst hk
    exact ⟨"file", by simp, hnone, call_tool_of_raised env st st _ _ [] _
      (by simp [call_tool_dispatch, dispatchStr, withArg, hnone])⟩
  · -- ultimate_play_mod
    obtain ⟨k, hk, hnone⟩ := hmiss
    simp at hk
    subst hk
    exact ⟨"file", by simp, hnone, call_tool_of_raised env st st _ _ [] _
      (by simp [call_tool_dispatch, dispatchStr, withArg, hnone])⟩
  · -- ultimate_load_program
    obtain ⟨k, hk, hnone⟩ := hmiss
    simp at hk
    subst hk
    exact ⟨"file", by simp, hnone, call_tool_of_raised env st st _ _ [] _
      (by simp [call_tool_dispatch, dispatchStr, withArg, hnone])⟩
  · -- ultimate_run_program
    obtain ⟨k, hk, hnone⟩ := hmiss
    simp at hk
    subst hk
    exact ⟨"file", by simp, hnone, call_tool_of_raised env st st _ _ [] _
      (by simp [call_tool_dispatch, dispatchStr, withArg, hnone])⟩
  · -- ultimate_run_prg_binary
    obtain ⟨k, hk, -⟩ := hmiss
    simp at hk
  · -- ultimate_run_cartridge
    obtain ⟨k, hk, hnone⟩ := hmiss
    simp at hk
    subst hk
    exact ⟨"file", by simp, hnone, call_tool_of_raised env st st _ _ [] _
      (by simp [call_tool_dispatch, dispatchStr, withArg, hnone])⟩
  · -- ultimate_get_config_categories
    obtain ⟨k, hk, -⟩ := hmiss
    simp at hk
  · -- ultimate_get_config_category
    obtain ⟨k, hk, hnone⟩ := hmiss
    simp at hk
    subst hk
    exact ⟨"category", by simp, hnone, call_tool_of_raised env st st _ _ [] _
      (by simp [call_tool_dispatch, dispatchStr, withArg, hnone])⟩
  · -- ultimate_get_config_item
    obtain ⟨k, hk, hnone⟩ := hmiss
    simp at hk
    cases h1 : lookupArg args "category" with
    | none =>
      exact ⟨"category", by simp, h1, call_tool_of_raised env st st _ _ [] _
        (by simp [call_tool_dispatch, dispatchStr, withArg, h1])⟩
    | some v =>
      have hk2 : k = "item" := by
        cases hk with
        | inl h =>
          rw [h, h1] at hnone
          cases hnone
        | inr h => exact h
      subst hk2
      exact ⟨"item", by simp, hnone, call_tool_of_raised env st st _ _ [] _
        (by simp [call_tool_dispatch, dispatchStr, withArg, h1, hnone])⟩
  · -- ultimate_set_config_item
    obtain ⟨k, hk, hnone⟩ := hmiss
    simp at hk
    cases h1 : lookupArg args "category" with
    | none =>
      exact ⟨"category", by simp, h1, call_tool_of_raised env st st _ _ [] _
        (by simp [call_tool_dispatch, dispatchStr, withArg, h1])⟩
    | some v1 =>
      cases h2 : lookupArg args "item" with
      | none =>
        exact ⟨"item", by simp, h2, call_tool_of_raised env st st _ _ [] _
          (by simp [call_tool_dispatch, dispatchStr, withArg, h1, h2])⟩
      | some v2 =>
        have hk3 : k = "value" := by
          rcases hk with h | h | h
          · rw [h, h1] at hnone
            cases hnone
          · rw [h, h2] at hnone
            cases hnone
          · exact h
        subst hk3
        exact ⟨"value", by simp, hnone, call_tool_of_raised env st st _ _ [] _
          (by simp [call_tool_dispatch, dispatchStr, withArg, h1, h2, hnone])⟩
  · -- ultimate_mount_disk
    obtain ⟨k, hk, hnone⟩ := hmiss
    simp at hk
    cases h1 : lookupArg args "drive" with
    | none =>
      exact ⟨"drive", by simp, h1, call_tool_of_raised env st st _ _ [] _
        (by simp [call_tool_dispatch, dispatchStr, withArg, h1])⟩
    | some v =>
      have hk2 : k = "file" := by
        cases hk with
        | inl h =>
          rw [h, h1] at hnone
          cases hnone
        | inr h => exact h
      subst hk2
      exact ⟨"file", by simp, hnone, call_tool_of_raised env st st _ _ [] _
        (by simp [call_tool_dispatch, dispatchStr, withArg, h1, hnone])⟩
  · -- ultimate_unmount_disk
    obtain ⟨k, hk, hnone⟩ := hmiss
    simp at hk
    subst hk
    exact ⟨"drive", by simp, hnone, call_tool_of_raised env st st _ _ [] _
      (by simp [call_tool_dispatch, dispatchStr, withArg, hnone])⟩
  · -- ultimate_turn_drive_on
    obtain ⟨k, hk, hnone⟩ := hmiss
    simp at hk
    subst hk
    exact ⟨"drive", by simp, hnone, call_tool_of_raised env st st _ _ [] _
      (by simp [call_tool_dispatch, dispatchStr, withArg, hnone])⟩
  · -- ultimate_turn_drive_off
    obtain ⟨k, hk, hnone⟩ := hmiss
    simp at hk
    subst hk
    exact ⟨"drive", by simp, hnone, call_tool_of_raised env st st _ _ [] _
      (by simp [call_tool_dispatch, dispatchStr, withArg, hnone])⟩
  · -- ultimate_create_d64
    obtain ⟨k, hk, hnone⟩ := hmiss
    simp at hk
    subst hk
    exact ⟨"path", by simp, hnone, call_tool_of_raised env st st _ _ [] _
      (by simp [call_tool_dispatch, dispatchStr, withArg, hnone])⟩
  · -- ultimate_create_d71
    obtain ⟨k, hk, hnone⟩ := hmiss
    simp at hk
    subst hk
    exact ⟨"path", by simp, hnone, call_tool_of_raised env st st _ _ [] _
      (by simp [call_tool_dispatch, dispatchStr, withArg, hnone])⟩
  · -- ultimate_create_d81
    obtain ⟨k, hk, hnone⟩ := hmiss
    simp at hk
    subst hk
    exact ⟨"path", by simp, hnone, call_tool_of_raised env st st _ _ [] _
      (by simp [call_tool_dispatch, dispatchStr, withArg, hnone])⟩
  · -- ultimate_save_config
    obtain ⟨k, hk, -⟩ := hmiss
    simp at hk
  · -- ultimate_load_config
    obtain ⟨k, hk, -⟩ := hmiss
    simp at hk
  · -- ultimate_reset_config
    obtain ⟨k, hk, -⟩ := hmiss
    simp at hk
  · -- ultimate_read_memory
    obtain ⟨k, hk, hnone⟩ := hmiss
    simp at hk
    subst hk
    exact ⟨"address", by simp, hnone, call_tool_of_raised env st st _ _ [] _
      (by simp [call_tool_dispatch, dispatchStr, withArg, hnone])⟩
  · -- ultimate_write_memory
    obtain ⟨k, hk, hnone⟩ := hmiss
    simp at hk
    cases h1 : lookupArg args "address" with
    | none =>
      exact ⟨"address", by simp, h1, call_tool_of_raised env st st _ _ [] _
        (by simp [call_tool_dispatch, dispatchStr, withArg, h1])⟩
    | some v =>
      have hk2 : k = "data" := by
        cases hk with
        | inl h =>
          rw [h, h1] at hnone
          cases hnone
        | inr h => exact h
      subst hk2
      exact ⟨"data", by simp, hnone, call_tool_of_raised env st st _ _ [] _
        (by simp [call_tool_dispatch, dispatchStr, withArg, h1, hnone])⟩
  · -- ultimate_write_memory_binary
    obtain ⟨k, hk, hnone⟩ := hmiss
    simp at hk
    cases h1 : lookupArg args "address" with
    | none =>
      exact ⟨"address", by simp, h1, call_tool_of_raised env st st _ _ [] _
        (by simp [call_tool_dispatch, dispatchStr, withArg, h1])⟩
    | some v =>
      have hk2 : k = "file_path" := by
        cases hk with
        | inl h =>
          rw [h, h1] at hnone
          cases hnone
        | inr h => exact h
      subst hk2
      exact ⟨"file_path", by simp, hnone, call_tool_of_raised env st st _ _ [] _
        (by simp [call_tool_dispatch, dispatchStr, withArg, h1, hnone])⟩
  · -- ultimate_reset_machine
    obtain ⟨k, hk, -⟩ := hmiss
    simp at hk
  · -- ultimate_power_off
    obtain ⟨k, hk, -⟩ := hmiss
    simp at hk
  · -- ultimate_get_machine_info
    obtain ⟨k, hk, -⟩ := hmiss
    simp at hk
  · -- ultimate_get_machine_state
    obtain ⟨k, hk, -⟩ := hmiss
    simp at hk
  · -- ultimate_soft_reset
    obtain ⟨k, hk, -⟩ := hmiss
    simp at hk
  · -- ultimate_reboot_device
    obtain ⟨k, hk, -⟩ := hmiss
    simp at hk
  · -- ultimate_set_drive_mode
    obtain ⟨k, hk, hnone⟩ := hmiss
    simp at hk
    cases h1 : lookupArg args "drive" with
    | none =>
      exact ⟨"drive", by simp, h1, call_tool_of_raised env st st _ _ [] _
        (by simp [call_tool_dispatch, dispatchStr, withArg, h1])⟩
    | some v =>
      have hk2 : k = "mode" := by
        cases hk with
        | inl h =>
          rw [h, h1] at hnone
          cases hnone
        | inr h => exact h
      subst hk2
      exact ⟨"mode", by simp, hnone, call_tool_of_raised env st st _ _ [] _
        (by simp [call_tool_dispatch, dispatchStr, withArg, h1, hnone])⟩
  · -- ultimate_load_drive_rom
    obtain ⟨k, hk, hnone⟩ := hmiss
    simp at hk
    cases h1 : lookupArg args "drive" with
    | none =>
      exact ⟨"drive", by simp, h1, call_tool_of_raised env st st _ _ [] _
        (by simp [call_tool_dispatch, dispatchStr, withArg, h1])⟩
    | some v =>
      have hk2 : k = "file" := by
        cases hk with
        | inl h =>
          rw [h, h1] at hnone
          cases hnone
        | inr h => exact h
      subst hk2
      exact ⟨"file", by simp, hnone, call_tool_of_raised env st st _ _ [] _
        (by simp [call_tool_dispatch, dispatchStr, withArg, h1, hnone])⟩
  · -- ultimate_get_file_info
    obtain ⟨k, hk, hnone⟩ := hmiss
    simp at hk
    subst hk
    exact ⟨"path", by simp, hnone, call_tool_of_raised env st st _ _ [] _
      (by simp [call_tool_dispatch, dispatchStr, withArg, hnone])⟩
  · -- ultimate_create_dnp
    obtain ⟨k, hk, hnone⟩ := hmiss
    simp at hk
    cases h1 : lookupArg args "path" with
    | none =>
      exact ⟨"path", by simp, h1, call_tool_of_raised env st st _ _ [] _
        (by simp [call_tool_dispatch, dispatchStr, withArg, h1])⟩
    | some v =>
      have hk2 : k = "tracks" := by
        cases hk with
        | inl h =>
          rw [h, h1] at hnone
          cases hnone
        | inr h => exact h
      subst hk2
      exact ⟨"tracks", by simp, hnone, call_tool_of_raised env st st _ _ [] _
        (by simp [call_tool_dispatch, dispatchStr, withArg, h1, hnone])⟩
  · -- ultimate_start_stream
    obtain ⟨k, hk, hnone⟩ := hmiss
    simp at hk
    cases h1 : lookupArg args "stream" with
    | none =>
      exact ⟨"stream", by simp, h1, call_tool_of_raised env st st _ _ [] _
        (by simp [call_tool_dispatch, dispatchStr, withArg, h1])⟩
    | some v =>
      have hk2 : k = "ip" := by
        cases hk with
        | inl h =>
          rw [h, h1] at hnone
          cases hnone
        | inr h => exact h
      subst hk2
      exact ⟨"ip", by simp, hnone, call_tool_of_raised env st st _ _ [] _
        (by simp [call_tool_dispatch, dispatchStr, withArg, h1, hnone])⟩
  · -- ultimate_stop_stream
    obtain ⟨k, hk, hnone⟩ := hmiss
    simp at hk
    subst hk
    exact ⟨"stream", by simp, hnone, call_tool_of_raised env st st _ _ [] _
      (by simp [call_tool_dispatch, dispatchStr, withArg, hnone])⟩
  · -- ultimate_bulk_config_update
    obtain ⟨k, hk, hnone⟩ := hmiss
    simp at hk
    subst hk
    exact ⟨"config", by simp, hnone, call_tool_of_raised env st st _ _ [] _
      (by simp [call_tool_dispatch, dispatchStr, withArg, hnone])⟩

/-- Witness for C2: mount_disk with an empty argument bag. -/
theorem call_tool_missing_required_argument_witness :
    ∃ k, k ∈ (⟨"ultimate_mount_disk", ["drive", "file"]⟩ : ToolDef).required ∧
      lookupArg [] k = Option.none ∧
      call_tool testEnv initConn (.str "ultimate_mount_disk") (.dict []) =
        ⟨initConn, [], ⟨"Error: " ++ (sq ++ k ++ sq), false⟩⟩ :=
  call_tool_missing_required_argument testEnv initConn
    ⟨"ultimate_mount_disk", ["drive", "file"]⟩ (by decide) []
    ⟨"drive", by decide, rfl⟩

end U64
